import Mathlib

/-!
Verification of the protocol/state-synchronization engine of
homebridge-denon-accfactory against its natural-language specification.

The development shallowly embeds the relevant JavaScript code:

* src/denon.js — telnet telegram decoder (`#subscribeTelnet` data callback),
  state normalizer (`#processData`), `scaleValue`, `fetchWrapper`;
* the accessory class (receiver.js) — `updateHomeKitServices` override-cache
  reconciliation and the `#crc32` stable identifier hash.

JavaScript strings are Lean `String`s; the handful of string primitives the
code uses (trim, split, startsWith, substring, padEnd, toUpperCase) are
re-implemented structurally over `String.data` so that every definition
reduces definitionally.  JavaScript numbers are exact rationals `ℚ`
(every quantity the decoder manipulates is an exact decimal, so IEEE-754
rounding never shows in the modelled paths); `Number(s)`/`parseFloat(s)`
return `Option ℚ` with `none` playing the role of `NaN`.  Code that can
throw a `TypeError` at runtime is embedded in `Except JsError`.
-/

/-! ## JavaScript string primitives -/

/-- Whitespace characters relevant to the (ASCII) telnet protocol; agrees
with the JavaScript `trim` whitespace set on every character that can occur
in a telegram. -/
def jsWhitespaceChar (c : Char) : Bool :=
  c = ' ' || c = '\t' || c = '\n' || c = '\r'

/-- JavaScript `String.prototype.trim`. -/
def jsTrim (s : String) : String :=
  ⟨((s.data.dropWhile jsWhitespaceChar).reverse.dropWhile jsWhitespaceChar).reverse⟩

/-- Split a character list at every occurrence of `sep` (the separators are
dropped; empty segments are kept, as in JavaScript `split`). -/
def splitCharList (sep : Char) : List Char → List (List Char)
  | [] => [[]]
  | c :: rest =>
    let r := splitCharList sep rest
    if c = sep then [] :: r
    else
      match r with
      | h :: t => (c :: h) :: t
      | [] => [[c]]

/-- JavaScript `String.prototype.split` with a one-character separator. -/
def jsSplit (s : String) (sep : Char) : List String :=
  (splitCharList sep s.data).map String.mk

/-- JavaScript `String.prototype.startsWith`. -/
def jsStartsWith (s p : String) : Bool :=
  p.data.isPrefixOf s.data

/-- JavaScript `s.substring(a)` (ASCII: code units coincide with characters). -/
def jsSubstringFrom (s : String) (a : ℕ) : String :=
  ⟨s.data.drop a⟩

/-- JavaScript `s.substring(a, b)`. -/
def jsSubstring (s : String) (a b : ℕ) : String :=
  ⟨(s.data.take b).drop a⟩

/-- JavaScript `String.prototype.toUpperCase` (ASCII). -/
def jsToUpper (s : String) : String :=
  ⟨s.data.map Char.toUpper⟩

/-- JavaScript `s.padEnd(n, c)`. -/
def jsPadEnd (s : String) (n : ℕ) (c : Char) : String :=
  ⟨s.data ++ List.replicate (n - s.data.length) c⟩

/-- JavaScript `s.split(/ (.*)/s)[0]`: the part of `s` before its first
space (the whole of `s` when it has no space). -/
def firstToken (s : String) : String :=
  ⟨s.data.takeWhile (fun c => !(c = ' '))⟩

/-! ## JavaScript number primitives -/

/-- Numeric value of a digit string (`foldl`, base 10; `0` on `[]`). -/
def digitsToNat (ds : List Char) : ℕ :=
  ds.foldl (fun a c => 10 * a + (c.toNat - 48)) 0

/-- Parse an unsigned decimal `digits[.digits]` (entire list must be
consumed), as accepted by JavaScript `Number` on telegram payloads. -/
def parseUnsignedDec (cs : List Char) : Option ℚ :=
  let intDigits := cs.takeWhile Char.isDigit
  let rest := cs.dropWhile Char.isDigit
  match rest with
  | [] => if intDigits.isEmpty then none else some (digitsToNat intDigits : ℚ)
  | '.' :: fracs =>
    if fracs.all Char.isDigit && !(intDigits.isEmpty && fracs.isEmpty) then
      some ((digitsToNat intDigits : ℚ) + (digitsToNat fracs : ℚ) / (10 ^ fracs.length))
    else none
  | _ => none

/-- JavaScript `Number(s)` on the decimal fragment relevant to the
protocol: whitespace-trimmed, the empty string is `0`, otherwise an
optionally signed decimal; `none` stands for `NaN`. -/
def jsNumber (s : String) : Option ℚ :=
  let t := jsTrim s
  if t.data.isEmpty then some 0
  else
    match t.data with
    | '-' :: cs => (parseUnsignedDec cs).map Neg.neg
    | '+' :: cs => parseUnsignedDec cs
    | cs => parseUnsignedDec cs

/-- Longest-valid-prefix magnitude parse used by `parseFloat`. -/
def parseFloatMag (cs : List Char) : Option ℚ :=
  let intDigits := cs.takeWhile Char.isDigit
  let rest := cs.dropWhile Char.isDigit
  match rest with
  | '.' :: fr =>
    let fracs := fr.takeWhile Char.isDigit
    if intDigits.isEmpty && fracs.isEmpty then none
    else some ((digitsToNat intDigits : ℚ) + (digitsToNat fracs : ℚ) / (10 ^ fracs.length))
  | _ => if intDigits.isEmpty then none else some (digitsToNat intDigits : ℚ)

/-- JavaScript `parseFloat(s)` on the decimal fragment relevant to the
protocol; `none` stands for `NaN`. -/
def jsParseFloat (s : String) : Option ℚ :=
  match (jsTrim s).data with
  | '-' :: cs => (parseFloatMag cs).map Neg.neg
  | '+' :: cs => parseFloatMag cs
  | cs => parseFloatMag cs

/-- JavaScript `Math.round`: round half toward positive infinity. -/
def jsRound (q : ℚ) : ℤ := ⌊q + 1 / 2⌋

/-- Render `t` tenths as a fixed-point decimal with one fractional digit,
e.g. `-340 ↦ "-34.0"`. -/
def renderTenths (t : ℤ) : String :=
  (if t < 0 then "-" else "") ++ toString (t.natAbs / 10) ++ "." ++ toString (t.natAbs % 10)

/-- Render `h` hundredths as a fixed-point decimal with two fractional
digits, e.g. `10250 ↦ "102.50"`. -/
def renderHundredths (h : ℤ) : String :=
  (if h < 0 then "-" else "") ++ toString (h.natAbs / 100) ++ "."
    ++ toString (h.natAbs % 100 / 10) ++ toString (h.natAbs % 10)

/-- JavaScript `q.toFixed(1)`.  Every call site in the decoder passes an
exact multiple of one tenth, on which this rendering is exact. -/
def toFixed1 (q : ℚ) : String := renderTenths ⌊q * 10 + 1 / 2⌋

/-- JavaScript `q.toFixed(2)`.  Every call site in the decoder passes an
exact multiple of one hundredth, on which this rendering is exact. -/
def toFixed2 (q : ℚ) : String := renderHundredths ⌊q * 100 + 1 / 2⌋

/-! ## scaleValue (denon.js lines 1048–1056) -/

/-- Embedding of `scaleValue`: clamp `value` into the source range, then
map it linearly onto the target range. -/
def scaleValue (value sourceRangeMin sourceRangeMax targetRangeMin targetRangeMax : ℚ) : ℚ :=
  let v1 := if value < sourceRangeMin then sourceRangeMin else value
  let v2 := if v1 > sourceRangeMax then sourceRangeMax else v1
  (v2 - sourceRangeMin) * (targetRangeMax - targetRangeMin)
    / (sourceRangeMax - sourceRangeMin) + targetRangeMin

/-! ## Stable identifier hash: crc32 (receiver accessory class, lines 402-438)

The JavaScript source stores the 256-entry lookup table as a literal array
(entries written as signed 32-bit constants; negative literals denote the
corresponding two's-complement bit pattern, reproduced here as the value
modulo 2^32).  The hashing loop is

  crc32 = (crc32HashTable[(crc32 ^ byte) & 0xff] ^ (crc32 >>> 8)) & 0xffffffff

starting from 0xffffffff, with a final XOR by 0xffffffff; all JavaScript
32-bit bitwise operations coincide with natural-number bitwise operations
once values are canonicalized into [0, 2^32), which the fold below
maintains.  The trailing `>>> 0` only reinterprets the sign and does not
change the bit pattern. -/

/-- The 256 table constants of the source, as values modulo 2^32. -/
def crc32HashTable : List ℕ := [
    0x00000000, 0x77073096, 0xee0e612c, 0x990951ba, 0x076dc419, 0x706af48f, 0xe963a535, 0x9e6495a3,
    0x0edb8832, 0x79dcb8a4, 0xe0d5e91e, 0x97d2d988, 0x09b64c2b, 0x7eb17cbd, 0xe7b82d07, 0x90bf1d91,
    0x1db71064, 0x6ab020f2, 0xf3b97148, 0x84be41de, 0x1adad47d, 0x6ddde4eb, 0xf4d4b551, 0x83d385c7,
    0x136c9856, 0x646ba8c0, 0xfd62f97a, 0x8a65c9ec, 0x14015c4f, 0x63066cd9, 0xfa0f3d63, 0x8d080df5,
    0x3b6e20c8, 0x4c69105e, 0xd56041e4, 0xa2677172, 0x3c03e4d1, 0x4b04d447, 0xd20d85fd, 0xa50ab56b,
    0x35b5a8fa, 0x42b2986c, 0xdbbbc9d6, 0xacbcf940, 0x32d86ce3, 0x45df5c75, 0xdcd60dcf, 0xabd13d59,
    0x26d930ac, 0x51de003a, 0xc8d75180, 0xbfd06116, 0x21b4f4b5, 0x56b3c423, 0xcfba9599, 0xb8bda50f,
    0x2802b89e, 0x5f058808, 0xc60cd9b2, 0xb10be924, 0x2f6f7c87, 0x58684c11, 0xc1611dab, 0xb6662d3d,
    0x76dc4190, 0x01db7106, 0x98d220bc, 0xefd5102a, 0x71b18589, 0x06b6b51f, 0x9fbfe4a5, 0xe8b8d433,
    0x7807c9a2, 0x0f00f934, 0x9609a88e, 0xe10e9818, 0x7f6a0dbb, 0x086d3d2d, 0x91646c97, 0xe6635c01,
    0x6b6b51f4, 0x1c6c6162, 0x856530d8, 0xf262004e, 0x6c0695ed, 0x1b01a57b, 0x8208f4c1, 0xf50fc457,
    0x65b0d9c6, 0x12b7e950, 0x8bbeb8ea, 0xfcb9887c, 0x62dd1ddf, 0x15da2d49, 0x8cd37cf3, 0xfbd44c65,
    0x4db26158, 0x3ab551ce, 0xa3bc0074, 0xd4bb30e2, 0x4adfa541, 0x3dd895d7, 0xa4d1c46d, 0xd3d6f4fb,
    0x4369e96a, 0x346ed9fc, 0xad678846, 0xda60b8d0, 0x44042d73, 0x33031de5, 0xaa0a4c5f, 0xdd0d7cc9,
    0x5005713c, 0x270241aa, 0xbe0b1010, 0xc90c2086, 0x5768b525, 0x206f85b3, 0xb966d409, 0xce61e49f,
    0x5edef90e, 0x29d9c998, 0xb0d09822, 0xc7d7a8b4, 0x59b33d17, 0x2eb40d81, 0xb7bd5c3b, 0xc0ba6cad,
    0xedb88320, 0x9abfb3b6, 0x03b6e20c, 0x74b1d29a, 0xead54739, 0x9dd277af, 0x04db2615, 0x73dc1683,
    0xe3630b12, 0x94643b84, 0x0d6d6a3e, 0x7a6a5aa8, 0xe40ecf0b, 0x9309ff9d, 0x0a00ae27, 0x7d079eb1,
    0xf00f9344, 0x8708a3d2, 0x1e01f268, 0x6906c2fe, 0xf762575d, 0x806567cb, 0x196c3671, 0x6e6b06e7,
    0xfed41b76, 0x89d32be0, 0x10da7a5a, 0x67dd4acc, 0xf9b9df6f, 0x8ebeeff9, 0x17b7be43, 0x60b08ed5,
    0xd6d6a3e8, 0xa1d1937e, 0x38d8c2c4, 0x4fdff252, 0xd1bb67f1, 0xa6bc5767, 0x3fb506dd, 0x48b2364b,
    0xd80d2bda, 0xaf0a1b4c, 0x36034af6, 0x41047a60, 0xdf60efc3, 0xa867df55, 0x316e8eef, 0x4669be79,
    0xcb61b38c, 0xbc66831a, 0x256fd2a0, 0x5268e236, 0xcc0c7795, 0xbb0b4703, 0x220216b9, 0x5505262f,
    0xc5ba3bbe, 0xb2bd0b28, 0x2bb45a92, 0x5cb36a04, 0xc2d7ffa7, 0xb5d0cf31, 0x2cd99e8b, 0x5bdeae1d,
    0x9b64c2b0, 0xec63f226, 0x756aa39c, 0x026d930a, 0x9c0906a9, 0xeb0e363f, 0x72076785, 0x05005713,
    0x95bf4a82, 0xe2b87a14, 0x7bb12bae, 0x0cb61b38, 0x92d28e9b, 0xe5d5be0d, 0x7cdcefb7, 0x0bdbdf21,
    0x86d3d2d4, 0xf1d4e242, 0x68ddb3f8, 0x1fda836e, 0x81be16cd, 0xf6b9265b, 0x6fb077e1, 0x18b74777,
    0x88085ae6, 0xff0f6a70, 0x66063bca, 0x11010b5c, 0x8f659eff, 0xf862ae69, 0x616bffd3, 0x166ccf45,
    0xa00ae278, 0xd70dd2ee, 0x4e048354, 0x3903b3c2, 0xa7672661, 0xd06016f7, 0x4969474d, 0x3e6e77db,
    0xaed16a4a, 0xd9d65adc, 0x40df0b66, 0x37d83bf0, 0xa9bcae53, 0xdebb9ec5, 0x47b2cf7f, 0x30b5ffe9,
    0xbdbdf21c, 0xcabac28a, 0x53b39330, 0x24b4a3a6, 0xbad03605, 0xcdd70693, 0x54de5729, 0x23d967bf,
    0xb3667a2e, 0xc4614ab8, 0x5d681b02, 0x2a6f2b94, 0xb40bbe37, 0xc30c8ea1, 0x5a05df1b, 0x2d02ef8d]

/-- The reflected CRC-32 generator polynomial named by the specification. -/
def CRCPOLY : ℕ := 0xedb88320

/-- One bit step of the standard reflected CRC-32: shift right, and XOR the
polynomial in when the bit shifted out was set. -/
def crcStep (r : ℕ) : ℕ :=
  if r % 2 = 1 then (r >>> 1) ^^^ CRCPOLY else r >>> 1

/-- Eight bit steps: one full byte of the standard bitwise algorithm. -/
def crcSteps8 (r : ℕ) : ℕ :=
  crcStep (crcStep (crcStep (crcStep (crcStep (crcStep (crcStep (crcStep r)))))))

/-- The reference table entry for index `n`: eight bit steps applied to `n`. -/
def crcEntry (n : ℕ) : ℕ := crcSteps8 n

/-- Embedding of the source hashing loop, on a list of byte values.  The
`% 2 ^ 32` mirrors the source's `& 0xffffffff` mask. -/
def sourceCrc32 (bytes : List ℕ) : ℕ :=
  (bytes.foldl
    (fun r b => (crc32HashTable.getD ((r ^^^ b) % 256) 0 ^^^ (r >>> 8)) % 2 ^ 32)
    0xffffffff) ^^^ 0xffffffff

/-- The standard reflected CRC-32, stated from the specification's words:
initial register 0xffffffff; for each byte, XOR it into the register and
perform eight shift/conditional-XOR steps with polynomial 0xedb88320;
finally XOR with 0xffffffff. -/
def specCrc32 (bytes : List ℕ) : ℕ :=
  (bytes.foldl (fun r b => crcSteps8 (r ^^^ b)) 0xffffffff) ^^^ 0xffffffff

/-- The UTF-8 byte sequence of a string (what `Buffer.from` feeds to the
source's hashing loop). -/
def utf8Bytes (s : String) : List ℕ :=
  s.toUTF8.toList.map UInt8.toNat

/-! ## Telnet telegram decoder (denon.js, `subscribeTelnet` data callback, lines 314-623)

The device state cached under `this.#rawData[macAddress].value` is embedded
as `DeviceValue`.  Per-zone sub-objects that the descriptor may or may not
contain (`GetAllZoneVolume.zoneN`, `GetAllZoneSource.zoneN`, …) are
`Option`s; JavaScript statements that would dereference such a missing
object throw a `TypeError`, embedded as `Except.error JsError.typeError`.
Handlers are translated in source order; a thrown error aborts the
remaining handlers of the line and the remaining lines of the read, exactly
as an exception escaping the `forEach` callbacks would. -/

/-- Runtime failures of the embedded JavaScript. -/
inductive JsError where
  | typeError
  | httpError (code : ℕ) (msg : String)
  deriving DecidableEq, Repr

/-- Per-zone entry of `GetAllZoneVolume`: the raw volume as the decoder
stores it (a fixed-point dB string, or the sentinel `"--"`), the display
mode, and the rendered display value. -/
structure ZoneVolume where
  volume : String
  disptype : String
  dispvalue : String
  deriving DecidableEq, Repr

/-- `GetTunerStatus`. -/
structure TunerStatus where
  band : String
  automanual : String
  name : String
  frequency : String
  presetno : String
  presetname : String
  deriving DecidableEq, Repr

/-- One entry of the preset table (the `$` attributes of a preset node). -/
structure Preset where
  table : String
  param : String
  skip : String
  deriving DecidableEq, Repr

/-- One entry of `GetRenameSource.functionrename.list`. -/
structure NameRename where
  name : String
  rename : String
  deriving DecidableEq, Repr

/-- One entry of `GetDeletedSource.functiondelete.list`. -/
structure NameUse where
  name : String
  use : String
  deriving DecidableEq, Repr

/-- The `sdp` descriptor fields the decoder writes. -/
structure Sdp where
  firmwareVersion : String
  serialNumber : String
  friendlyName : String
  deriving DecidableEq, Repr

/-- The per-device raw state the telnet decoder reads and writes. -/
structure DeviceValue where
  sdp : Sdp
  powerZone1 : Option String
  powerZone2 : Option String
  powerZone3 : Option String
  muteZone1 : Option String
  muteZone2 : Option String
  muteZone3 : Option String
  volZone1 : Option ZoneVolume
  volZone2 : Option ZoneVolume
  volZone3 : Option ZoneVolume
  nameZone1 : Option String
  nameZone2 : Option String
  nameZone3 : Option String
  srcZone1 : Option String
  srcZone2 : Option String
  srcZone3 : Option String
  tuner : TunerStatus
  presets : List Preset
  renameList : List NameRename
  deleteList : List NameUse
  deriving DecidableEq, Repr

/-- Which handler of the data callback fired (one tag per executed
handler body, in source order). -/
inductive Update where
  | firmware
  | serial
  | friendly
  | power (zone : ℕ) (isOn : Bool)
  | mute (zone : ℕ) (isOn : Bool)
  | dispMode (rel : Bool)
  | volume (zone : ℕ)
  | zoneName (zone : ℕ)
  | input (zone : ℕ)
  | tunerBand
  | tunerMode
  | tunerName
  | tunerFreq
  | tunerPreset
  | presetDetail
  | presetSkip
  deriving DecidableEq, Repr

/-- The ordered command-prefix table of the source. -/
def DENON_COMMANDS : List String :=
  ["MU", "MV", "ZM", "Z2", "Z3", "SI", "TMAN", "TPMAN", "TPAN", "TFANNAME", "TFAN",
   "OPTPN", "OPTPSTUNER", "SSSOD", "SSFUN", "SSINFFRMAVR", "VIALLS/N.", "NSFRN",
   "R1", "R2", "R3", "SSVCTZMADIS"]

/-- The display value rendered in ABSOLUTE mode from a stored raw volume
string: scale, double, `Math.round`, halve, `toFixed(1)`; the sentinel
`"--"` renders as if the raw value were `0.0`. -/
def absDispValue (vol : String) : String :=
  match (if vol ≠ "--" then jsParseFloat vol else some 0) with
  | some q => toFixed1 ((jsRound (scaleValue q (-79.5) 18 0 98 * 2) : ℚ) * 0.5)
  | none => "NaN"

/-- The volume-change telegram applied to one zone's volume entry
(`n` is `Number(command[1])`, already known not to be `NaN`): store the
new raw-volume string, then re-render the display value per the stored
display mode. -/
def applyVolumeTelegram (z : ZoneVolume) (n : ℚ) (c1 : String) : ZoneVolume :=
  let newVol :=
    if n ≠ 0 then
      match jsNumber (jsPadEnd c1 3 '0') with
      | some m => toFixed1 (-79.5 + m / 10)
      | none => "NaN"
    else "--"
  let z1 := { z with volume := newVol }
  let z2 := if z1.disptype = "RELATIVE" then { z1 with dispvalue := z1.volume ++ "dB" } else z1
  if z2.disptype = "ABSOLUTE" then { z2 with dispvalue := absDispValue z2.volume } else z2

/-- RELATIVE re-rendering of one zone (SSVCTZMADIS REL branch). -/
def relDisplay (z : ZoneVolume) : ZoneVolume :=
  { z with disptype := "RELATIVE", dispvalue := z.volume ++ "dB" }

/-- ABSOLUTE re-rendering of one zone (SSVCTZMADIS ABS branch). -/
def absDisplay (z : ZoneVolume) : ZoneVolume :=
  { z with disptype := "ABSOLUTE", dispvalue := absDispValue z.volume }

/-- One line of the data callback: match the first prefix of
`DENON_COMMANDS` that the line starts with (the source's
`filter(...)[0]`), split off the remainder, and run the handler chain.
Returns the updated state together with the tags of the handlers that
fired. -/
def processLine (dv0 : DeviceValue) (dataline : String) :
    Except JsError (DeviceValue × List Update) := do
  match DENON_COMMANDS.find? (fun p => jsStartsWith dataline p) with
  | none => return (dv0, [])
  | some c0 =>
    let c1 := jsTrim (jsSubstringFrom dataline c0.length)
    let mut dv := dv0
    let mut us : List Update := []
    -- Device info (lines 327-339)
    if c0 = "SSINFFRMAVR" then
      dv := { dv with sdp := { dv.sdp with firmwareVersion := c1 } }
      us := us ++ [.firmware]
    if c0 = "VIALLS/N." then
      dv := { dv with sdp := { dv.sdp with serialNumber := c1 } }
      us := us ++ [.serial]
    if c0 = "NSFRN" then
      dv := { dv with sdp := { dv.sdp with friendlyName := c1 } }
      us := us ++ [.friendly]
    -- Zone power on/off (lines 341-353)
    if c0 = "ZM" ∧ (c1 = "ON" ∨ c1 = "OFF") then
      dv := { dv with powerZone1 := some (if c1 = "ON" then "ON" else "OFF") }
      us := us ++ [.power 1 (c1 = "ON")]
    if c0 = "Z2" ∧ (c1 = "ON" ∨ c1 = "OFF") then
      dv := { dv with powerZone2 := some (if c1 = "ON" then "ON" else "OFF") }
      us := us ++ [.power 2 (c1 = "ON")]
    if c0 = "Z3" ∧ (c1 = "ON" ∨ c1 = "OFF") then
      dv := { dv with powerZone3 := some (if c1 = "ON" then "ON" else "OFF") }
      us := us ++ [.power 3 (c1 = "ON")]
    -- Zone mute on/off (lines 355-367)
    if c0 = "MU" ∧ (c1 = "ON" ∨ c1 = "OFF") then
      dv := { dv with muteZone1 := some (if c1 = "ON" then "on" else "off") }
      us := us ++ [.mute 1 (c1 = "ON")]
    if c0 = "Z2" ∧ (c1 = "MUON" ∨ c1 = "MUOFF") then
      dv := { dv with muteZone2 := some (if c1 = "MUON" then "on" else "off") }
      us := us ++ [.mute 2 (c1 = "MUON")]
    if c0 = "Z3" ∧ (c1 = "MUON" ∨ c1 = "MUOFF") then
      dv := { dv with muteZone3 := some (if c1 = "MUON" then "on" else "off") }
      us := us ++ [.mute 3 (c1 = "MUON")]
    -- Volume display type change (lines 369-416).  In the REL branch and
    -- for zone2 of the ABS branch the source guards the optional zone
    -- object with `?.zoneN !== undefined`; for zone3 of the ABS branch it
    -- tests `typeof ... !== undefined`, which compares a string against
    -- `undefined` and is always true, so that dereference is unguarded.
    if c0 = "SSVCTZMADIS" ∧ (c1 = "ABS" ∨ c1 = "REL") then
      if c1 = "REL" then
        match dv.volZone1 with
        | none => throw JsError.typeError
        | some z1 => dv := { dv with volZone1 := some (relDisplay z1) }
        if h2 : dv.volZone2.isSome then
          dv := { dv with volZone2 := some (relDisplay (dv.volZone2.get h2)) }
        if h3 : dv.volZone3.isSome then
          dv := { dv with volZone3 := some (relDisplay (dv.volZone3.get h3)) }
      if c1 = "ABS" then
        match dv.volZone1 with
        | none => throw JsError.typeError
        | some z1 => dv := { dv with volZone1 := some (absDisplay z1) }
        if h2 : dv.volZone2.isSome then
          dv := { dv with volZone2 := some (absDisplay (dv.volZone2.get h2)) }
        match dv.volZone3 with
        | none => throw JsError.typeError
        | some z3 => dv := { dv with volZone3 := some (absDisplay z3) }
      us := us ++ [.dispMode (c1 = "REL")]
    -- Zone volume change (lines 418-476); the `MVMAX` branch (line 437)
    -- compares the array `command[1].split(' ')` against the string 'MAX'
    -- and never runs.
    if c0 = "MV" then
      match jsNumber c1 with
      | some n =>
        match dv.volZone1 with
        | none => throw JsError.typeError
        | some z1 => dv := { dv with volZone1 := some (applyVolumeTelegram z1 n c1) }
        us := us ++ [.volume 1]
      | none => pure ()
    if c0 = "Z2" then
      match jsNumber c1 with
      | some n =>
        match dv.volZone2 with
        | none => throw JsError.typeError
        | some z2 => dv := { dv with volZone2 := some (applyVolumeTelegram z2 n c1) }
        us := us ++ [.volume 2]
      | none => pure ()
    if c0 = "Z3" then
      match jsNumber c1 with
      | some n =>
        match dv.volZone3 with
        | none => throw JsError.typeError
        | some z3 => dv := { dv with volZone3 := some (applyVolumeTelegram z3 n c1) }
        us := us ++ [.volume 3]
      | none => pure ()
    -- Zone name change (lines 478-490)
    if c0 = "R1" then
      dv := { dv with nameZone1 := some (jsPadEnd (jsSubstring c1 0 10) 10 ' ' ++ "\r") }
      us := us ++ [.zoneName 1]
    if c0 = "R2" then
      dv := { dv with nameZone2 := some (jsPadEnd (jsSubstring c1 0 10) 10 ' ' ++ "\r") }
      us := us ++ [.zoneName 2]
    if c0 = "R3" then
      dv := { dv with nameZone3 := some (jsPadEnd (jsSubstring c1 0 10) 10 ' ' ++ "\r") }
      us := us ++ [.zoneName 3]
    -- Input change (lines 492-518).  Only the main zone handler can run:
    -- the zone2/zone3 conditions test `command === 'Z2'` / `command === 'Z3'`,
    -- comparing the array `command` against a string, and are never true.
    if c0 = "SI" then
      match dv.srcZone1 with
      | none => throw JsError.typeError
      | some _ => dv := { dv with srcZone1 := some c1 }
      us := us ++ [.input 1]
    -- Tuner changes (lines 520-541)
    if c0 = "TMAN" ∧ (c1 = "FM" ∨ c1 = "AM") then
      dv := { dv with tuner := { dv.tuner with band := c1 } }
      us := us ++ [.tunerBand]
    if c0 = "TMAN" ∧ (c1 = "AUTO" ∨ c1 = "MANUAL") then
      dv := { dv with tuner := { dv.tuner with automanual := c1 } }
      us := us ++ [.tunerMode]
    if c0 = "TFANNAME" then
      dv := { dv with tuner := { dv.tuner with name := c1 ++ "\r" } }
      us := us ++ [.tunerName]
    if c0 = "TFAN" then
      match jsNumber c1 with
      | some n =>
        dv := { dv with tuner := { dv.tuner with frequency := toFixed2 (n / 100) } }
        us := us ++ [.tunerFreq]
      | none => pure ()
    if c0 = "TPAN" then
      dv := { dv with tuner := { dv.tuner with
        presetno := c1, presetname := jsPadEnd "" 10 ' ' } }
      us := us ++ [.tunerPreset]
    -- Preset changes (lines 543-565)
    if c0 = "OPTPN" then
      if jsSubstring c1 0 2 = dv.tuner.presetno then
        dv := { dv with tuner := { dv.tuner with
          presetno := jsSubstring c1 0 2,
          presetname := jsPadEnd (jsSubstring c1 2 11) 10 ' ',
          frequency := match jsNumber (jsSubstring c1 11 17) with
            | some n => toFixed2 (n / 100)
            | none => "NaN" } }
      match dv.presets.findIdx? (fun p => p.table = jsSubstring c1 0 2) with
      | some idx =>
        match dv.presets[idx]? with
        | some p =>
          dv := { dv with presets := dv.presets.set idx { p with param := jsSubstringFrom c1 2 } }
        | none => pure ()
      | none => pure ()
      us := us ++ [.presetDetail]
    if c0 = "OPTPSTUNER" ∧ ((jsSplit c1 ' ').get? 1 = some "ON" ∨ (jsSplit c1 ' ').get? 1 = some "OFF") then
      match dv.presets.findIdx? (fun p => p.table = (jsSplit c1 ' ').getD 0 "") with
      | some idx =>
        match dv.presets[idx]? with
        | some p =>
          dv := { dv with presets := dv.presets.set idx { p with skip := (jsSplit c1 ' ').getD 1 "" } }
        | none => pure ()
      | none => pure ()
      us := us ++ [.presetSkip]
    -- Source rename/hide (lines 567-615).  The source condition is
    -- `command[0] === 'SSSOD' || command === 'SSFUN'`; the second disjunct
    -- compares the array `command` with a string and is never true, so
    -- SSFUN rename telegrams never enter this branch and are dropped.  For
    -- SSSOD lines the first statement, `command[1].split(' ').toUpperCase()`,
    -- calls toUpperCase on the array returned by split, which throws a
    -- TypeError, so the alias normalization and the rename/delete table
    -- updates below it are unreachable.
    if c0 = "SSSOD" then
      throw JsError.typeError
    return (dv, us)

/-- One socket read: the source splits the trimmed data on carriage
returns and processes every resulting segment immediately — there is no
carry-over buffer for an unterminated final segment. -/
def processRead (dv : DeviceValue) (data : String) :
    Except JsError (DeviceValue × List Update) :=
  (jsSplit (jsTrim data) '\r').foldlM
    (fun acc line => do
      let r ← processLine acc.1 line
      pure (r.1, acc.2 ++ r.2))
    (dv, [])

/-- A sequence of socket reads, each processed by `processRead`. -/
def processReads (dv : DeviceValue) (reads : List String) :
    Except JsError (DeviceValue × List Update) :=
  reads.foldlM
    (fun acc data => do
      let r ← processRead acc.1 data
      pure (r.1, acc.2 ++ r.2))
    (dv, [])

/-! ## Sample device states used by concrete theorems -/

/-- A zone volume entry in RELATIVE display mode. -/
def zvRel (v : String) : ZoneVolume :=
  { volume := v, disptype := "RELATIVE", dispvalue := v ++ "dB" }

/-- A quiescent tuner status. -/
def tunerInit : TunerStatus :=
  { band := "FM", automanual := "AUTO", name := "          ", frequency := "0.00",
    presetno := "OFF", presetname := "          " }

/-- Descriptor fields of the sample device. -/
def sdpInit : Sdp :=
  { firmwareVersion := "1.0.0", serialNumber := "SN1", friendlyName := "Denon AVR" }

/-- A three-zone device state: every zone powered off, muted off, volume
-40.0 dB in RELATIVE display mode, source CD. -/
def deviceState3 : DeviceValue :=
  { sdp := sdpInit,
    powerZone1 := some "OFF", powerZone2 := some "OFF", powerZone3 := some "OFF",
    muteZone1 := some "off", muteZone2 := some "off", muteZone3 := some "off",
    volZone1 := some (zvRel "-40.0"), volZone2 := some (zvRel "-40.0"),
    volZone3 := some (zvRel "-40.0"),
    nameZone1 := some "MAIN ZONE \r", nameZone2 := some "ZONE2     \r",
    nameZone3 := some "ZONE3     \r",
    srcZone1 := some "CD", srcZone2 := some "CD", srcZone3 := some "CD",
    tuner := tunerInit,
    presets := [{ table := "01", param := "STATION A 008750", skip := "OFF" }],
    renameList := [{ name := "Blu-ray", rename := "Blu-ray" }],
    deleteList := [{ name := "Blu-ray", use := "1" }] }

/-- A two-zone device state: as `deviceState3` but with no zone-3 volume
entry in the descriptor data. -/
def deviceState2 : DeviceValue :=
  { deviceState3 with
    powerZone3 := none
    muteZone3 := none
    volZone3 := none
    nameZone3 := none
    srcZone3 := none }

instance : DecidableEq (Except JsError (DeviceValue × List Update)) := fun a b =>
  match a, b with
  | .ok x, .ok y => decidable_of_iff (x = y) (by constructor <;> intro h <;> simp_all)
  | .error e, .error f => decidable_of_iff (e = f) (by constructor <;> intro h <;> simp_all)
  | .ok _, .error _ => isFalse (by simp)
  | .error _, .ok _ => isFalse (by simp)

/-! ## Local override cache reconciliation
(accessory class, `updateHomeKitServices`, lines 175-194)

For each key held in `this.cachedOptions` the method compares the
`JSON.stringify` images of the incoming device data, the previously pushed
device data, and the cached (locally set) value.  On the scalar fields
tracked by the cache, equality of the stringify images is equality of the
values, so the comparison is embedded as decidable equality on an
arbitrary value type. -/

/-- One reconciliation pass over a single tracked field.  `cached` is the
locally-set value stored at set() time, `previous` is the canonical value
the accessory currently holds (`this.deviceData[key]`), `updated` is the
incoming canonical value.  Returns the exposed value (what
`updatedDeviceData[key]` holds after the pass) and the cache entry
afterwards (`none` when the override was dropped). -/
def reconcileField {V : Type} [DecidableEq V] (cached previous updated : V) : V × Option V :=
  if updated = previous ∧ updated ≠ cached then
    (cached, some cached)
  else if updated ≠ previous then
    (updated, none)
  else if cached = updated ∧ cached = previous then
    (updated, none)
  else
    (updated, some cached)

/-! ## Active-input resolution per zone (denon.js, `processData`, lines 834-892)

The zone loop builds `tempZone` and then folds over the device's input
list; the loop body may reassign the mutable `zoneName` variable to
`'zone1'` (the fallback for secondary zones with no explicit source).
Zone sources are a function from the 1-based zone number to the
`GetAllZoneSource.zoneN.source` string. -/

/-- An entry of the input list built by the normalizer (only the `uri`
field takes part in active-input resolution). -/
structure InputEntry where
  uri : String
  deriving DecidableEq, Repr

/-- The mutable state of one iteration of the zone loop: the current
`zoneName` (1-based) and the `tempZone` fields the input fold writes. -/
structure ZoneResolve where
  zoneName : ℕ
  input : String
  source : String
  label : String
  deriving DecidableEq, Repr

/-- The body of `tempDevice.inputs.forEach` for zone `zoneIdx` (0-based
outer loop index): possibly fall back to zone 1, match the source's first
token against the input's uri (with the AIRPLAY-to-NET exception), then
the tuner/preset resolution. -/
def resolveStep (srcs : ℕ → String) (tuner : TunerStatus) (zoneIdx : ℕ)
    (st : ZoneResolve) (inp : InputEntry) : ZoneResolve :=
  let zn := if (srcs st.zoneName = "SOURCE" ∨ srcs st.zoneName = "") ∧ zoneIdx ≠ 0
    then 1 else st.zoneName
  let src := srcs zn
  let st1 := { st with zoneName := zn }
  let st2 :=
    if jsToUpper (firstToken src) = jsToUpper inp.uri
        ∨ (jsToUpper (firstToken src) = "AIRPLAY" ∧ jsToUpper inp.uri = "NET") then
      { st1 with input := inp.uri }
    else st1
  if jsToUpper src = "TUNER" then
    let label := jsTrim tuner.name
    let st3 :=
      if jsToUpper tuner.presetno = "OFF"
          ∧ "TUNER" ++ jsToUpper tuner.band = jsToUpper inp.uri then
        { st2 with input := inp.uri, label := label }
      else st2
    if ¬jsToUpper tuner.presetno = "OFF"
        ∧ "PRESET" ++ tuner.presetno = jsToUpper inp.uri then
      { st3 with input := "TUNER" ++ jsToUpper tuner.band,
                 source := jsToUpper inp.uri, label := label }
    else st3
  else st2

/-- Active-input resolution for the zone with 0-based index `zoneIdx`:
fold the step over the input list starting from an empty `tempZone`. -/
def resolveZone (inputs : List InputEntry) (srcs : ℕ → String) (tuner : TunerStatus)
    (zoneIdx : ℕ) : ZoneResolve :=
  inputs.foldl (resolveStep srcs tuner zoneIdx)
    { zoneName := zoneIdx + 1, input := "", source := "", label := "" }

/-- The same step with the zone-1 fallback removed: the zone always reads
its own source. -/
def resolveStepPlain (srcs : ℕ → String) (tuner : TunerStatus)
    (st : ZoneResolve) (inp : InputEntry) : ZoneResolve :=
  let src := srcs st.zoneName
  let st2 :=
    if jsToUpper (firstToken src) = jsToUpper inp.uri
        ∨ (jsToUpper (firstToken src) = "AIRPLAY" ∧ jsToUpper inp.uri = "NET") then
      { st with input := inp.uri }
    else st
  if jsToUpper src = "TUNER" then
    let label := jsTrim tuner.name
    let st3 :=
      if jsToUpper tuner.presetno = "OFF"
          ∧ "TUNER" ++ jsToUpper tuner.band = jsToUpper inp.uri then
        { st2 with input := inp.uri, label := label }
      else st2
    if ¬jsToUpper tuner.presetno = "OFF"
        ∧ "PRESET" ++ tuner.presetno = jsToUpper inp.uri then
      { st3 with input := "TUNER" ++ jsToUpper tuner.band,
                 source := jsToUpper inp.uri, label := label }
    else st3
  else st2

/-- Fallback-free resolution for the main zone. -/
def resolveZonePlain (inputs : List InputEntry) (srcs : ℕ → String)
    (tuner : TunerStatus) : ZoneResolve :=
  inputs.foldl (resolveStepPlain srcs tuner)
    { zoneName := 1, input := "", source := "", label := "" }

/-! ## Normalized zone volume and the volume scale (denon.js lines 841-846, 1048-1056) -/

/-- The normalized volume step `processData` computes for a zone from the
stored raw-volume string: parse (the sentinel `"--"` counts as `0.0`),
scale from -79.5..18 onto 0..98, double, `Math.round`, halve.  `none`
stands for the `NaN` an unparsable stored string would produce. -/
def zoneVolumeStep (vol : String) : Option ℚ :=
  match (if vol ≠ "--" then jsParseFloat vol else some 0) with
  | some q => some ((jsRound (scaleValue q (-79.5) 18 0 98 * 2) : ℚ) * 0.5)
  | none => none

/-- Normalization of a raw dB value onto the 0..98 step scale including
the decoder's rounding onto the 0.5 grid. -/
def normalizeStep (v : ℚ) : ℚ :=
  (jsRound (scaleValue v (-79.5) 18 0 98 * 2) : ℚ) * 0.5

/-- Modelled from the spec: de-normalization of a 0..98 step value back to
raw dB through the inverse linear scale.  No de-normalizing caller exists
under src/ (user volume intents are sent as UP/DOWN, never as absolute
values), so the inverse direction named by the specification is realized
by the source's own `scaleValue` with source and target ranges swapped. -/
def denormalizeStep (n : ℚ) : ℚ :=
  scaleValue n 0 98 (-79.5) 18

/-! ## fetchWrapper (denon.js lines 1058-1101)

`fetchWrapper` drives the request/response fallback channel.  The embedding
keeps the pieces the retry logic observes: `fetch` is a function from the
attempt number to the response it resolves with (a response is its `ok`
flag, `status` and `statusText`); the same mutable `options` object is
passed to the recursive call, so the recursion returns the final value of
`options.retry` along with the response; the attempt counter returned
makes the number of performed fetches observable.  The 500 ms backoff
delay has no observable effect on the result and is not modelled.  A
JavaScript `throw` is `Except.error`. -/

/-- The fields of a fetch `Response` the retry logic reads. -/
structure FetchResponse where
  ok : Bool
  status : ℕ
  statusText : String
  deriving DecidableEq, Repr

/-- The body of `fetchWrapper` from the `options.retry` handling on
(everything before it only canonicalizes `options`): `respParam` is the
`response` parameter (undefined at the top-level call), `attempt` counts
fetches already performed, `retry` is the current `options.retry`.
Returns (response, final `options.retry`, final attempt counter). -/
def fetchWrapperAux (fetchResults : ℕ → FetchResponse) (respParam : Option FetchResponse)
    (attempt retry : ℕ) : Except JsError (Option FetchResponse × ℕ × ℕ) :=
  if retry > 0 then
    let r := fetchResults attempt
    if h2 : r.ok = false ∧ retry > 1 then
      -- options.retry-- , 500 ms delay, recursive call sharing `options`
      match fetchWrapperAux fetchResults (some r) (attempt + 1) (retry - 1) with
      | .error e => .error e
      | .ok (resp2, retry2, attempt2) =>
        match resp2 with
        | none => .error JsError.typeError
        | some r2 =>
          if r2.ok = false ∧ retry2 = 0 then
            .error (JsError.httpError r2.status r2.statusText)
          else
            .ok (some r2, retry2, attempt2)
    else
      if r.ok = false ∧ retry = 0 then
        .error (JsError.httpError r.status r.statusText)
      else
        .ok (some r, retry, attempt + 1)
  else
    .ok (respParam, retry, attempt)
termination_by retry
decreasing_by
  omega

/-- A fetch that always resolves with an HTTP 500 failure. -/
def failFetch : ℕ → FetchResponse :=
  fun _ => { ok := false, status := 500, statusText := "Internal Server Error" }

/-- The zone-volume entry after an ABS display toggle at raw -40.0 dB. -/
def zvAbs40 : ZoneVolume :=
  { volume := "-40.0", disptype := "ABSOLUTE", dispvalue := "39.5" }

/-- `deviceState3` with every zone re-rendered in ABSOLUTE mode. -/
def deviceState3Abs : DeviceValue :=
  { deviceState3 with
    volZone1 := some zvAbs40
    volZone2 := some zvAbs40
    volZone3 := some zvAbs40 }

/-- A sample zone-source assignment: zone 1 plays CD, zone 2 follows the
main zone (empty source). -/
def srcsSample : ℕ → String :=
  fun z => if z = 1 then "CD" else ""

/-! ### The table-driven loop computes the standard bitwise CRC-32 -/

theorem crcStep_testBit (x i : ℕ) :
    (crcStep x).testBit i = ((x.testBit (i + 1)).xor (x.testBit 0 && CRCPOLY.testBit i)) := by
  unfold crcStep
  rcases Nat.mod_two_eq_zero_or_one x with h | h
  · simp [h, Nat.testBit_shiftRight, Nat.testBit_zero, Nat.add_comm 1 i]
  · simp [h, Nat.testBit_xor, Nat.testBit_shiftRight, Nat.testBit_zero, Nat.add_comm 1 i]

theorem crcStep_xor (a b : ℕ) : crcStep (a ^^^ b) = crcStep a ^^^ crcStep b := by
  apply Nat.eq_of_testBit_eq
  intro i
  have hbool : ∀ x y u v p : Bool, ((x.xor y).xor ((u.xor v) && p))
      = ((x.xor (u && p)).xor (y.xor (v && p))) := by decide
  simp only [crcStep_testBit, Nat.testBit_xor]
  exact hbool _ _ _ _ _

theorem crcSteps8_xor (a b : ℕ) : crcSteps8 (a ^^^ b) = crcSteps8 a ^^^ crcSteps8 b := by
  unfold crcSteps8
  simp only [crcStep_xor]

theorem crcStep_two_mul (m : ℕ) : crcStep (2 * m) = m := by
  unfold crcStep
  have h1 : 2 * m % 2 = 0 := Nat.mul_mod_right 2 m
  have h2 : (2 * m) >>> 1 = m := by
    rw [Nat.shiftRight_one]
    omega
  simp [h1, h2]

theorem crcSteps8_mul256 (h : ℕ) : crcSteps8 (256 * h) = h := by
  have e : (256 : ℕ) * h = 2 * (2 * (2 * (2 * (2 * (2 * (2 * (2 * h))))))) := by ring
  unfold crcSteps8
  rw [e, crcStep_two_mul, crcStep_two_mul, crcStep_two_mul, crcStep_two_mul,
    crcStep_two_mul, crcStep_two_mul, crcStep_two_mul, crcStep_two_mul]

theorem byte_decomp (x : ℕ) : x = (x % 256) ^^^ (256 * (x / 256)) := by
  apply Nat.eq_of_testBit_eq
  intro i
  have h256 : (256 : ℕ) = 2 ^ 8 := by norm_num
  have hshift : (256 : ℕ) * (x / 256) = (x >>> 8) <<< 8 := by
    rw [Nat.shiftLeft_eq, Nat.shiftRight_eq_div_pow, h256]
    ring
  rw [hshift, h256, Nat.testBit_xor, Nat.testBit_mod_two_pow, Nat.testBit_shiftLeft]
  rcases Nat.lt_or_ge i 8 with hi | hi
  · simp [hi, Nat.not_le.mpr hi]
  · have : 8 + (i - 8) = i := by omega
    simp [Nat.not_lt.mpr hi, hi, Nat.testBit_shiftRight, this]

theorem crcSteps8_decomp (x : ℕ) : crcSteps8 x = crcEntry (x % 256) ^^^ (x >>> 8) := by
  conv_lhs => rw [byte_decomp x]
  rw [crcSteps8_xor, crcSteps8_mul256, crcEntry, Nat.shiftRight_eq_div_pow]

set_option maxRecDepth 8192 in
theorem crc32HashTable_eq : crc32HashTable = (List.range 256).map crcEntry := by decide

theorem crc32HashTable_getD (k : ℕ) (hk : k < 256) :
    crc32HashTable.getD k 0 = crcEntry k := by
  rw [crc32HashTable_eq, List.getD_eq_getElem?_getD, List.getElem?_map,
    List.getElem?_range hk]
  rfl

theorem shiftRight_xor_distrib (a b n : ℕ) : (a ^^^ b) >>> n = (a >>> n) ^^^ (b >>> n) := by
  apply Nat.eq_of_testBit_eq
  intro i
  simp [Nat.testBit_shiftRight, Nat.testBit_xor]

theorem crcStep_lt (r : ℕ) (h : r < 2 ^ 32) : crcStep r < 2 ^ 32 := by
  unfold crcStep
  have hs : r >>> 1 < 2 ^ 32 := lt_of_le_of_lt (by rw [Nat.shiftRight_one]; omega) h
  split
  · exact Nat.xor_lt_two_pow hs (by norm_num [CRCPOLY])
  · exact hs

theorem crcSteps8_lt (r : ℕ) (h : r < 2 ^ 32) : crcSteps8 r < 2 ^ 32 := by
  unfold crcSteps8
  exact crcStep_lt _ (crcStep_lt _ (crcStep_lt _ (crcStep_lt _ (crcStep_lt _
    (crcStep_lt _ (crcStep_lt _ (crcStep_lt _ h)))))))

/-- One byte of the source loop agrees with one byte of the bitwise
algorithm (and stays below 2^32, so the source's mask is the identity). -/
theorem crcByteStep_eq (r b : ℕ) (hr : r < 2 ^ 32) (hb : b < 256) :
    (crc32HashTable.getD ((r ^^^ b) % 256) 0 ^^^ (r >>> 8)) % 2 ^ 32 = crcSteps8 (r ^^^ b) := by
  have hidx : (r ^^^ b) % 256 < 256 := Nat.mod_lt _ (by norm_num)
  have hshift : (r ^^^ b) >>> 8 = r >>> 8 := by
    rw [shiftRight_xor_distrib]
    have : b >>> 8 = 0 := by
      rw [Nat.shiftRight_eq_div_pow]
      omega
    simp [this]
  rw [crc32HashTable_getD _ hidx, crcSteps8_decomp, hshift]
  apply Nat.mod_eq_of_lt
  apply Nat.xor_lt_two_pow
  · exact crcSteps8_lt _ (lt_of_lt_of_le hidx (by norm_num))
  · exact lt_of_le_of_lt (by rw [Nat.shiftRight_eq_div_pow]; exact Nat.div_le_self _ _) hr

theorem crcFold_eq (bytes : List ℕ) : ∀ r : ℕ, r < 2 ^ 32 → (∀ b ∈ bytes, b < 256) →
    bytes.foldl (fun r b => (crc32HashTable.getD ((r ^^^ b) % 256) 0 ^^^ (r >>> 8)) % 2 ^ 32) r
      = bytes.foldl (fun r b => crcSteps8 (r ^^^ b)) r := by
  induction bytes with
  | nil => intro r _ _; rfl
  | cons b rest ih =>
    intro r hr hball
    have hb : b < 256 := hball b (List.mem_cons_self b rest)
    have hstep := crcByteStep_eq r b hr hb
    have hlt : crcSteps8 (r ^^^ b) < 2 ^ 32 :=
      crcSteps8_lt _ (Nat.xor_lt_two_pow hr (lt_of_lt_of_le hb (by norm_num)))
    simp only [List.foldl_cons, hstep]
    exact ih _ hlt (fun x hx => hball x (List.mem_cons_of_mem b hx))

/-- The source hash equals the standard reflected CRC-32 on every list of
byte values. -/
theorem sourceCrc32_eq_specCrc32 (bytes : List ℕ) (hb : ∀ b ∈ bytes, b < 256) :
    sourceCrc32 bytes = specCrc32 bytes := by
  unfold sourceCrc32 specCrc32
  rw [crcFold_eq bytes 0xffffffff (by norm_num) hb]

/-! ## Helper lemmas for active-input resolution -/

theorem resolveStep_zoneName_preserved (srcs : ℕ → String) (tuner : TunerStatus)
    (zoneIdx : ℕ) (st : ZoneResolve) (inp : InputEntry) (h : st.zoneName = 1) :
    (resolveStep srcs tuner zoneIdx st inp).zoneName = 1 := by
  unfold resolveStep
  simp only [h, ite_self]
  split_ifs <;> rfl

theorem resolveStep_of_zoneName_one (srcs : ℕ → String) (tuner : TunerStatus)
    (zoneIdx : ℕ) (st : ZoneResolve) (inp : InputEntry) (h : st.zoneName = 1) :
    resolveStep srcs tuner zoneIdx st inp = resolveStep srcs tuner 0 st inp := by
  unfold resolveStep
  simp [h, ite_self]

theorem foldl_resolveStep_of_zoneName_one (srcs : ℕ → String) (tuner : TunerStatus)
    (zoneIdx : ℕ) (l : List InputEntry) :
    ∀ st : ZoneResolve, st.zoneName = 1 →
      l.foldl (resolveStep srcs tuner zoneIdx) st = l.foldl (resolveStep srcs tuner 0) st := by
  induction l with
  | nil => intro st _; rfl
  | cons a l ih =>
    intro st h
    simp only [List.foldl_cons]
    rw [resolveStep_of_zoneName_one srcs tuner zoneIdx st a h]
    exact ih _ (resolveStep_zoneName_preserved srcs tuner 0 st a h)

theorem resolveStep_zero_eq_plain (srcs : ℕ → String) (tuner : TunerStatus) :
    resolveStep srcs tuner 0 = resolveStepPlain srcs tuner := by
  funext st inp
  unfold resolveStep resolveStepPlain
  simp

/-! ## Claim theorems -/

/-- Claim C1: override-cache reconciliation follows the three-way test for
every tracked field.  With previous canonical value `vOff` and a local
override that set `vOn` (distinct from `vOff`): a canonical update
reporting `vOff` keeps the override and the exposed value stays `vOn`; a
canonical update reporting `vOn` clears the override and exposes `vOn`; a
canonical update reporting any third value clears the override and exposes
that third value. -/
theorem C1_override_reconciliation {V : Type} [DecidableEq V] (vOn vOff third : V)
    (hdiff : vOn ≠ vOff) (h3off : third ≠ vOff) (h3on : third ≠ vOn) :
    reconcileField vOn vOff vOff = (vOn, some vOn)
      ∧ reconcileField vOn vOff vOn = (vOn, none)
      ∧ reconcileField vOn vOff third = (third, none) := by
  refine ⟨?_, ?_, ?_⟩ <;>
    simp [reconcileField, hdiff, h3off, h3on, Ne.symm hdiff]

theorem C1_override_reconciliation_witness :
    reconcileField "ON" "OFF" "OFF" = ("ON", some "ON")
      ∧ reconcileField "ON" "OFF" "ON" = ("ON", none)
      ∧ reconcileField "ON" "OFF" "STANDBY" = ("STANDBY", none) :=
  C1_override_reconciliation "ON" "OFF" "STANDBY" (by decide) (by decide) (by decide)

/-- Claim C2 (counterexample): the claim asserts a read that ends in the
middle of a line produces zero state updates until the terminator arrives
in a later read.  The single read "Z2ON" — a telegram cut before its
carriage-return terminator — is nevertheless processed immediately and
produces a zone-2 power state update. -/
theorem C2_counterexample :
    processRead deviceState3 "Z2ON"
      = .ok ({ deviceState3 with powerZone2 := some "ON" }, [.power 2 true]) := by
  with_unfolding_all decide

/-- Claim C2 (amended): a single read containing two terminated telegram
lines decodes into exactly two independent state updates; but the decoder
does not buffer across reads: the unterminated trailing segment of a read
is processed immediately as if complete, and a telegram split across two
reads is never reassembled (the halves "Z2O" and "N" each decode to
nothing, so the zone-2 power update is lost). -/
theorem C2_amended :
    processRead deviceState3 "ZMON\rZ2ON\r"
        = .ok ({ deviceState3 with powerZone1 := some "ON", powerZone2 := some "ON" },
          [.power 1 true, .power 2 true])
      ∧ processReads deviceState3 ["Z2O", "N\r"] = .ok (deviceState3, []) := by
  constructor <;> with_unfolding_all decide

/-- Claim C3: the claim asserts every SSFUN rename telegram and SSSOD hide
telegram is alias-normalized and updates the rename respectively delete
table without raising an error.  In the code the SSFUN arm of the guard
compares the prefix-match array itself against the string 'SSFUN' and
never holds, so a rename telegram updates nothing; and the SSSOD arm calls
toUpperCase on the array produced by split(' '), raising a TypeError
before any alias normalization. -/
theorem C3_alias_code_bug :
    processLine deviceState3 "SSFUNBD Movies" = .ok (deviceState3, [])
      ∧ processLine deviceState3 "SSSODBD DEL" = .error JsError.typeError := by
  constructor <;> with_unfolding_all decide

/-- Claim C4: decoding the volume telegram with code 455 stores the raw
volume string "-34.0" (-79.5 + 455/10 rendered fixed-point to one
decimal), and the normalized absolute step computed from that raw value by
the state normalizer is 45.5 on the 0.5 grid. -/
theorem C4_volume_code_455 :
    processLine deviceState3 "MV455"
        = .ok ({ deviceState3 with
            volZone1 := some { volume := "-34.0", disptype := "RELATIVE",
                               dispvalue := "-34.0dB" } },
          [.volume 1])
      ∧ toFixed1 (-79.5 + 455 / 10) = "-34.0"
      ∧ zoneVolumeStep "-34.0" = some (45.5 : ℚ) := by
  refine ⟨?_, ?_, ?_⟩ <;> with_unfolding_all decide

/-- Claim C5: the stable identifier hash is exactly the standard reflected
CRC-32 (polynomial 0xedb88320, initial register 0xffffffff, final XOR
0xffffffff) of the UTF-8 byte sequence of the input key, for every key. -/
theorem C5_crc32_is_standard (key : String) :
    sourceCrc32 (utf8Bytes key) = specCrc32 (utf8Bytes key) := by
  apply sourceCrc32_eq_specCrc32
  intro b hb
  simp only [utf8Bytes, List.mem_map] at hb
  obtain ⟨u, _, rfl⟩ := hb
  exact u.toNat_lt

/-- Claim C7: a non-main zone whose source field is empty or the
follow-main sentinel resolves its active input to zone 1's resolved input;
and for zone 1 the fallback is inert — its resolution coincides with the
fallback-free fold. -/
theorem C7_zone_follow_main (inputs : List InputEntry) (srcs : ℕ → String)
    (tuner : TunerStatus) (zoneIdx : ℕ) (hz : zoneIdx ≠ 0)
    (hsrc : srcs (zoneIdx + 1) = "" ∨ srcs (zoneIdx + 1) = "SOURCE") :
    (resolveZone inputs srcs tuner zoneIdx).input
        = (resolveZone inputs srcs tuner 0).input
      ∧ resolveZone inputs srcs tuner 0 = resolveZonePlain inputs srcs tuner := by
  constructor
  · cases inputs with
    | nil => rfl
    | cons a l =>
      unfold resolveZone
      simp only [List.foldl_cons]
      have hcond : (srcs (zoneIdx + 1) = "SOURCE" ∨ srcs (zoneIdx + 1) = "") ∧ zoneIdx ≠ 0 :=
        ⟨hsrc.symm, hz⟩
      have hstep : resolveStep srcs tuner zoneIdx
            { zoneName := zoneIdx + 1, input := "", source := "", label := "" } a
          = resolveStep srcs tuner 0
            { zoneName := 0 + 1, input := "", source := "", label := "" } a := by
        unfold resolveStep
        simp [hcond.1, hz]
      rw [hstep]
      have hone : (resolveStep srcs tuner 0
          { zoneName := 0 + 1, input := "", source := "", label := "" } a).zoneName = 1 :=
        resolveStep_zoneName_preserved srcs tuner 0 _ a rfl
      rw [foldl_resolveStep_of_zoneName_one srcs tuner zoneIdx l _ hone]
  · unfold resolveZone resolveZonePlain
    rw [resolveStep_zero_eq_plain]

theorem C7_zone_follow_main_witness :
    (resolveZone [{ uri := "CD" }] srcsSample tunerInit 1).input
        = (resolveZone [{ uri := "CD" }] srcsSample tunerInit 0).input
      ∧ resolveZone [{ uri := "CD" }] srcsSample tunerInit 0
        = resolveZonePlain [{ uri := "CD" }] srcsSample tunerInit :=
  C7_zone_follow_main [{ uri := "CD" }] srcsSample tunerInit 1 (by decide) (Or.inl rfl)

/-- Claim C8: the claim (and the specification) say that when the final
fallback attempt still fails, the failure is thrown to the caller.  The
code decrements options.retry only while it is greater than 1 and throws
only when it equals 0 after the recursion — a value it never reaches — so
with any configured retry count n+1 and every fetch resolving with an
HTTP-500 failure, fetchWrapper performs n+1 fetches and then RETURNS the
failed response (with the shared retry counter resting at 1) instead of
throwing. -/
theorem C8_retry_exhaustion_returns (n attempt : ℕ) (p : Option FetchResponse) :
    fetchWrapperAux failFetch p attempt (n + 1)
      = .ok (some (failFetch 0), 1, attempt + n + 1) := by
  induction n generalizing attempt p with
  | zero =>
    unfold fetchWrapperAux
    simp [failFetch]
  | succ k ih =>
    unfold fetchWrapperAux
    have hfa : attempt + 1 + k + 1 = attempt + (k + 1) + 1 := by omega
    simp only [show k + 1 + 1 - 1 = k + 1 from rfl, ih]
    simp [failFetch, hfa]

/-- Claim C9: a display-mode toggle re-renders the display value of every
zone present from that zone's stored raw volume (all three zones move to
ABSOLUTE rendering "39.5" and back to RELATIVE rendering "-40.0dB", raw
volumes unchanged throughout, not only the telegram's own zone) — but the
claim that the handler does not fail on devices with fewer than three
zones is wrong: the ABS branch guards zone 3 with `typeof x !== undefined`,
which is always true, so on a two-zone device the missing zone-3 entry is
dereferenced and a TypeError is raised. -/
theorem C9_dispmode_code_bug :
    processLine deviceState3 "SSVCTZMADIS ABS" = .ok (deviceState3Abs, [.dispMode false])
      ∧ processLine deviceState3Abs "SSVCTZMADIS REL" = .ok (deviceState3, [.dispMode true])
      ∧ processLine deviceState2 "SSVCTZMADIS ABS" = .error JsError.typeError := by
  refine ⟨?_, ?_, ?_⟩ <;> with_unfolding_all decide

/-- Claim C6 (counterexample): for the raw value -79.4 dB (on the 0.1 grid,
inside [-79.5, 18]) the round trip through the quantized normalization
returns -79.5 dB: the normalized step is 0, de-normalizing 0 gives -79.5,
and -79.5 still differs from -79.4 after rounding to one decimal place, so
the claimed invertibility within one-decimal rounding fails. -/
theorem C6_counterexample :
    normalizeStep (-794 / 10) = 0
      ∧ denormalizeStep (normalizeStep (-794 / 10)) = -79.5
      ∧ jsRound (10 * denormalizeStep (normalizeStep (-794 / 10)))
          ≠ jsRound (10 * (-794 / 10)) := by
  refine ⟨?_, ?_, ?_⟩ <;> with_unfolding_all decide

/-- Claim C6 (amended): normalizing a raw value v in [-79.5, 18] onto the
0..98 scale with the decoder's 0.5-step quantization and de-normalizing
through the inverse linear scale returns v only to within a quarter of a
dB (half of one 0.5 step carried back through the scale), not within
rounding to one decimal place. -/
theorem C6_roundtrip_amended (v : ℚ) (h1 : -79.5 ≤ v) (h2 : v ≤ 18) :
    |denormalizeStep (normalizeStep v) - v| ≤ 1 / 4 := by
  have hA : ¬ v < -79.5 := not_lt.mpr h1
  have hB : ¬ v > 18 := not_lt.mpr h2
  have hs : scaleValue v (-79.5) 18 0 98 = (v + 79.5) * 98 / 97.5 := by
    simp only [scaleValue, hA, if_false, hB]
    norm_num
  have hlin : (v + 79.5) * 98 / 97.5 * 97.5 = (v + 79.5) * 98 :=
    div_mul_cancel₀ _ (by norm_num)
  have hf0 : 0 ≤ (v + 79.5) * 98 / 97.5 := by
    apply div_nonneg _ (by norm_num)
    nlinarith
  have hf98 : (v + 79.5) * 98 / 97.5 ≤ 98 := by
    rw [div_le_iff (by norm_num : (0 : ℚ) < 97.5)]
    nlinarith
  have hn : normalizeStep v = (jsRound ((v + 79.5) * 98 / 97.5 * 2) : ℚ) * 0.5 := by
    unfold normalizeStep
    rw [hs]
  have hN1 : (jsRound ((v + 79.5) * 98 / 97.5 * 2) : ℚ) ≤ (v + 79.5) * 98 / 97.5 * 2 + 1 / 2 :=
    Int.floor_le _
  have hN2 : (v + 79.5) * 98 / 97.5 * 2 + 1 / 2 - 1
      < (jsRound ((v + 79.5) * 98 / 97.5 * 2) : ℚ) :=
    Int.sub_one_lt_floor _
  have hNnn : (0 : ℚ) ≤ (jsRound ((v + 79.5) * 98 / 97.5 * 2) : ℚ) := by
    have : (0 : ℤ) ≤ jsRound ((v + 79.5) * 98 / 97.5 * 2) := by
      apply Int.le_floor.mpr
      push_cast
      linarith
    exact_mod_cast this
  have hN196 : (jsRound ((v + 79.5) * 98 / 97.5 * 2) : ℚ) ≤ 196 := by
    have h197 : (jsRound ((v + 79.5) * 98 / 97.5 * 2) : ℚ) < 197 := by linarith
    have : jsRound ((v + 79.5) * 98 / 97.5 * 2) < 197 := by exact_mod_cast h197
    have : jsRound ((v + 79.5) * 98 / 97.5 * 2) ≤ 196 := by omega
    exact_mod_cast this
  have hd : denormalizeStep (normalizeStep v)
      = (jsRound ((v + 79.5) * 98 / 97.5 * 2) : ℚ) * 0.5 * 97.5 / 98 - 79.5 := by
    rw [hn]
    unfold denormalizeStep
    have hc1 : ¬ (jsRound ((v + 79.5) * 98 / 97.5 * 2) : ℚ) * 0.5 < 0 := by
      push_neg
      nlinarith
    have hc2 : ¬ (jsRound ((v + 79.5) * 98 / 97.5 * 2) : ℚ) * 0.5 > 98 := by
      push_neg
      nlinarith
    simp only [scaleValue, hc1, if_false, hc2]
    norm_num
    ring_nf
  rw [hd, abs_le]
  constructor <;> nlinarith [hlin, hN1, hN2]

theorem C6_roundtrip_amended_witness :
    -79.5 ≤ (-34 : ℚ) ∧ (-34 : ℚ) ≤ 18
      ∧ |denormalizeStep (normalizeStep (-34)) - (-34)| ≤ 1 / 4 :=
  ⟨by norm_num, by norm_num, C6_roundtrip_amended (-34) (by norm_num) (by norm_num)⟩

/-- Claim C10: for sourceRangeMin < sourceRangeMax and targetRangeMin ≤
targetRangeMax, scaleValue first clamps the input into the source range
(its value is the linear image of the clamped input), therefore always
returns a value inside the target range, and is monotone non-decreasing in
the input. -/
theorem C10_scaleValue_range_mono (a b c d : ℚ) (hab : a < b) (hcd : c ≤ d) :
    (∀ v : ℚ, scaleValue v a b c d = (min b (max a v) - a) * (d - c) / (b - a) + c)
      ∧ (∀ v : ℚ, c ≤ scaleValue v a b c d ∧ scaleValue v a b c d ≤ d)
      ∧ (∀ v w : ℚ, v ≤ w → scaleValue v a b c d ≤ scaleValue w a b c d) := by
  have hclamp : ∀ v : ℚ, scaleValue v a b c d = (min b (max a v) - a) * (d - c) / (b - a) + c := by
    intro v
    simp only [scaleValue]
    rcases lt_or_le v a with hva | hva
    · rw [if_pos hva, if_neg (not_lt.mpr hab.le), max_eq_left hva.le,
        min_eq_right hab.le]
    · rw [if_neg (not_lt.mpr hva), max_eq_right hva]
      rcases le_or_lt v b with hvb | hvb
      · rw [if_neg (not_lt.mpr hvb), min_eq_right hvb]
      · rw [if_pos hvb, min_eq_left hvb.le]
  have hbounds : ∀ v : ℚ, a ≤ min b (max a v) ∧ min b (max a v) ≤ b := by
    intro v
    exact ⟨le_min hab.le (le_max_left a v), min_le_left b _⟩
  refine ⟨hclamp, ?_, ?_⟩
  · intro v
    obtain ⟨hua, hub⟩ := hbounds v
    rw [hclamp v]
    constructor
    · have : 0 ≤ (min b (max a v) - a) * (d - c) / (b - a) :=
        div_nonneg (mul_nonneg (by linarith) (by linarith)) (by linarith)
      linarith
    · have : (min b (max a v) - a) * (d - c) / (b - a) ≤ d - c := by
        rw [div_le_iff (by linarith : (0 : ℚ) < b - a)]
        nlinarith
      linarith
  · intro v w hvw
    rw [hclamp v, hclamp w]
    have humono : min b (max a v) ≤ min b (max a w) :=
      min_le_min le_rfl (max_le_max le_rfl hvw)
    have hpos : (0 : ℚ) < b - a := by linarith
    have hmul : (min b (max a v) - a) * (d - c) ≤ (min b (max a w) - a) * (d - c) :=
      mul_le_mul_of_nonneg_right (by linarith) (by linarith)
    have hdiv : (min b (max a v) - a) * (d - c) / (b - a)
        ≤ (min b (max a w) - a) * (d - c) / (b - a) := by
      rw [div_eq_mul_inv, div_eq_mul_inv]
      exact mul_le_mul_of_nonneg_right hmul (inv_nonneg.mpr hpos.le)
    linarith

theorem C10_scaleValue_range_mono_witness :
    0 ≤ scaleValue (-100) (-79.5) 18 0 98
      ∧ scaleValue (-100) (-79.5) 18 0 98 ≤ 98
      ∧ scaleValue (-100) (-79.5) 18 0 98 ≤ scaleValue 5 (-79.5) 18 0 98 :=
  ⟨((C10_scaleValue_range_mono (-79.5) 18 0 98 (by norm_num) (by norm_num)).2.1 (-100)).1,
   ((C10_scaleValue_range_mono (-79.5) 18 0 98 (by norm_num) (by norm_num)).2.1 (-100)).2,
   (C10_scaleValue_range_mono (-79.5) 18 0 98 (by norm_num) (by norm_num)).2.2 (-100) 5
     (by norm_num)⟩
